import Mathlib

/-!
# Verification of the JobScrape extraction-and-export logic

Shallow embedding of `src/scrape.py`. The BeautifulSoup document tree is
modelled by a `Section` structure whose fields record exactly the results of
the tag/class/string queries the Python code performs on one job-posting
section; pure string manipulation (Python `in`, `str.replace`, the four
experience regexes, `'; '.join`) is translated directly. All text is
modelled at ASCII granularity (the regex classes `\d` and `\s` are the ASCII
digit and whitespace classes), matching the site content the scraper targets.
-/

namespace JobScrape

/-- Python substring containment `pat in text` (case-sensitive). -/
def pyContains (pat : List Char) : List Char → Bool
  | [] => pat.isEmpty
  | c :: cs => pat.isPrefixOf (c :: cs) || pyContains pat cs

/-- The recursion of `pyRemove`, structural on a fuel argument so that it
reduces definitionally; the fuel is always at least the text length, and
each step consumes at least one character from a non-empty pattern, so the
fuel-exhausted arm is never reached in use. -/
def pyRemoveGo (pat : List Char) : Nat → List Char → List Char
  | _, [] => []
  | 0, rest => rest
  | fuel + 1, c :: rest =>
    if pat.isEmpty then c :: rest
    else if pat.isPrefixOf (c :: rest) then
      pyRemoveGo pat fuel (List.drop pat.length (c :: rest))
    else c :: pyRemoveGo pat fuel rest

/-- Python `text.replace(pat, '')` for a non-empty `pat`: remove every
non-overlapping occurrence of `pat`, scanning left to right (models
`str.replace` with empty replacement as used on mailto hrefs at
`scrape.py:82`). -/
def pyRemove (pat : List Char) (cs : List Char) : List Char :=
  pyRemoveGo pat cs.length cs

/-- ASCII whitespace as matched by the regex class `\s` in the patterns of
`scrape.py:49-54` (space, tab, newline, carriage return, vertical tab,
form feed). -/
def isPySpace (c : Char) : Bool :=
  c == ' ' || c == '\t' || c == '\n' || c == '\r' ||
    c == Char.ofNat 11 || c == Char.ofNat 12

/-- Length of the maximal prefix of characters satisfying `p`. -/
def countWhile (p : Char → Bool) : List Char → Nat
  | [] => 0
  | c :: cs => if p c then countWhile p cs + 1 else 0

/-! ## Regex fragment matchers

Each matcher takes the text starting at a candidate position and returns the
number of characters the fragment consumes there (`none` when it cannot
match). The four experience patterns of `scrape.py:49-54` contain only
literals, `\d+`, `\+?`, `s?` and `\s*`; in each of them the character class
of a greedy/optional piece is disjoint from the first character the
remainder of the pattern can accept, so greedy (possessive) matching
coincides with Python's backtracking regex semantics. -/

/-- Sequencing of two fragment matchers. -/
def matchSeq (f g : List Char → Option Nat) (cs : List Char) : Option Nat :=
  match f cs with
  | none => none
  | some n =>
    match g (cs.drop n) with
    | none => none
    | some k => some (n + k)

/-- Case-insensitive literal (the `re.IGNORECASE` flag is passed on every
search at `scrape.py:58`). -/
def litCI (lit : String) (cs : List Char) : Option Nat :=
  go lit.data cs
where
  go : List Char → List Char → Option Nat
    | [], _ => some 0
    | _ :: _, [] => none
    | l :: ls, c :: cs => if c.toLower == l.toLower then (go ls cs).map (· + 1) else none

/-- `\d+` (greedy, at least one ASCII digit). -/
def digits1 (cs : List Char) : Option Nat :=
  let n := countWhile Char.isDigit cs
  if n == 0 then none else some n

/-- `\+?`. -/
def optPlus (cs : List Char) : Option Nat :=
  match cs with
  | '+' :: _ => some 1
  | _ => some 0

/-- `\s*` (greedy). -/
def spaces0 (cs : List Char) : Option Nat :=
  some (countWhile isPySpace cs)

/-- An optional single letter, case-insensitively (the `s?` in `years?`). -/
def optCharCI (c : Char) (cs : List Char) : Option Nat :=
  match cs with
  | x :: _ => if x.toLower == c.toLower then some 1 else some 0
  | [] => some 0

/-- Pattern 1 of `scrape.py:50`: `(\d+\+?\s*years?\s*of\s*experience)`. -/
def matchP1At : List Char → Option Nat :=
  matchSeq digits1 (matchSeq optPlus (matchSeq spaces0 (matchSeq (litCI "year")
    (matchSeq (optCharCI 's') (matchSeq spaces0 (matchSeq (litCI "of")
      (matchSeq spaces0 (litCI "experience"))))))))

/-- Pattern 2 of `scrape.py:51`: `(Minimum\s*of\s*\d+\s*years)`. -/
def matchP2At : List Char → Option Nat :=
  matchSeq (litCI "Minimum") (matchSeq spaces0 (matchSeq (litCI "of")
    (matchSeq spaces0 (matchSeq digits1 (matchSeq spaces0 (litCI "years"))))))

/-- Pattern 3 of `scrape.py:52`: `(\d+\+\s*years?\s*in)`. -/
def matchP3At : List Char → Option Nat :=
  matchSeq digits1 (matchSeq (litCI "+") (matchSeq spaces0 (matchSeq (litCI "year")
    (matchSeq (optCharCI 's') (matchSeq spaces0 (litCI "in"))))))

/-- Pattern 4 of `scrape.py:53`: `(minimum\s*\d+\s*years)`. -/
def matchP4At : List Char → Option Nat :=
  matchSeq (litCI "minimum") (matchSeq spaces0 (matchSeq digits1
    (matchSeq spaces0 (litCI "years"))))

/-- `re.search`: try the pattern at every position from the left, returning
the leftmost match (`match.group(0)`, i.e. the matched characters). -/
def reSearch (m : List Char → Option Nat) : List Char → Option (List Char)
  | [] =>
    match m [] with
    | some _ => some []
    | none => none
  | c :: cs =>
    match m (c :: cs) with
    | some n => some ((c :: cs).take n)
    | none => reSearch m cs

/-- The fixed ordered pattern list `experience_patterns` of `scrape.py:49-54`. -/
def experiencePatterns : List (List Char → Option Nat) :=
  [matchP1At, matchP2At, matchP3At, matchP4At]

/-- The loop of `scrape.py:57-61`: try each pattern in order with
`re.search`; the first pattern that matches anywhere wins. -/
def findExperience : List (List Char → Option Nat) → List Char → Option (List Char)
  | [], _ => none
  | p :: ps, t =>
    match reSearch p t with
    | some m => some m
    | none => findExperience ps t

/-- `ExperienceRequired` from the section's full text (`scrape.py:48-64`):
first matching pattern's leftmost match, empty string when none matches. -/
def extractExperience (fullText : String) : String :=
  match findExperience experiencePatterns fullText.data with
  | some m => String.mk m
  | none => ""

/-! ## Document-tree model of one job-posting section

A `Section` records the results of exactly the BeautifulSoup queries that
`extract_job_data` (`scrape.py:16-107`) performs on one
`<section class="crr_app_stt">` element. `Option` models an absent element
or attribute (Python `None`). -/

/-- The constant `BASE_URL` of `scrape.py:14`. -/
def BASE_URL : String := "https://techversantinfotech.com/talent/"

/-- The `<a class="crr_app_nw">` apply button; `href`/`datatitle` are its
attributes, `none` when the attribute is absent (`Tag.get` returns `None`). -/
structure ApplyButton where
  href : Option String
  datatitle : Option String
  deriving DecidableEq

/-- The parent element of a `<strong>` heading, as used by the
`.parent.find_next_sibling(...)` traversals of `scrape.py:42,73,87`:
`nextSiblingUl` is the following `<ul>` sibling's `<li>` texts (stripped),
`nextSiblingP` the following `<p>` sibling's stripped text. -/
structure ParentElem where
  nextSiblingUl : Option (List String)
  nextSiblingP : Option String
  deriving DecidableEq

/-- A `<strong>` descendant: `str` is BeautifulSoup's `.string` (the sole
text child, `none` when the tag has mixed content), `parent` its parent
element (`none` models a detached node, the structural-failure case). -/
structure StrongElem where
  str : Option String
  parent : Option ParentElem
  deriving DecidableEq

/-- A `<p>` descendant: `.string` and `get_text(strip=True)`. -/
structure PElem where
  str : Option String
  textStripped : String
  deriving DecidableEq

/-- One job-posting section.  Each field holds the result of one of the
queries in `extract_job_data`:
`titleText` = `find('h3', class_='crr_app_hh')`'s stripped text;
`categoryText` = `find('span', class_='crr_app_tp bluecrr')`;
`locationText` = `find('span', class_='crr_app_plc')`;
`applyButton` = `find('a', class_='crr_app_nw')`;
`pElems` = the `<p>` descendants in document order;
`fullText` = `get_text()`;
`strongs` = the `<strong>` descendants in document order;
`aHrefs` = the `<a>` descendants' `href` attributes in document order. -/
structure Section where
  titleText : Option String
  categoryText : Option String
  locationText : Option String
  applyButton : Option ApplyButton
  pElems : List PElem
  fullText : String
  strongs : List StrongElem
  aHrefs : List (Option String)
  deriving DecidableEq

/-- Wall-clock capture time (`datetime.now()`). -/
structure DateTime where
  year : Nat
  month : Nat
  day : Nat
  hour : Nat
  minute : Nat
  second : Nat
  deriving DecidableEq

/-- Zero-pad to two digits (strftime `%m`, `%d`, `%H`, `%M`, `%S`). -/
def pad2 (n : Nat) : String :=
  if n < 10 then "0" ++ toString n else toString n

/-- `datetime.now().strftime('%Y-%m-%d %H:%M:%S')` (`scrape.py:96`). -/
def formatTimestamp (d : DateTime) : String :=
  toString d.year ++ "-" ++ pad2 d.month ++ "-" ++ pad2 d.day ++ " " ++
    pad2 d.hour ++ ":" ++ pad2 d.minute ++ ":" ++ pad2 d.second

/-- One extracted record (`job_data` dict of `scrape.py:17-97`).  All values
are strings except `JobURL`/`JobID`, where `Tag.get` can yield Python `None`
(modelled `none`) when the apply button lacks the attribute. -/
structure JobRecord where
  JobTitle : String
  JobCategory : String
  Location : String
  JobURL : Option String
  JobID : Option String
  PostingDate : String
  JobDescriptionSummary : String
  ExperienceRequired : String
  SkillsRequired : String
  ContactEmail : String
  CompanyBenefits : String
  Salary : String
  ScrapedDate : String
  SourceURL : String
  deriving DecidableEq

/-- The heading `"What's important to us:"` of `scrape.py:40`. -/
def descHeadingText : String := "What" ++ String.singleton (Char.ofNat 39) ++ "s important to us:"

/-- The heading `"What Company Offers:"` of `scrape.py:85`. -/
def benefitsHeadingText : String := "What Company Offers:"

/-- The four skills keywords of `scrape.py:68`. -/
def skillsKeywords : List String :=
  ["Preferred Skills", "Required Skills", "Must-Have Skills", "Technical Stack"]

/-- The predicate of `scrape.py:67-69`: a `<strong>` whose `.string` is
truthy and *contains* (Python `in`) one of the keywords. -/
def strongMatchesSkills (s : StrongElem) : Bool :=
  match s.str with
  | some t => (t != "") && skillsKeywords.any (fun k => pyContains k.data t.data)
  | none => false

/-- `find('strong', string=lit)`: first `<strong>` whose `.string` equals
`lit` exactly. -/
def findStrongExact (lit : String) (ss : List StrongElem) : Option StrongElem :=
  ss.find? (fun s => s.str == some lit)

/-- The heading-then-sibling-paragraph lookup shared by
`JobDescriptionSummary` (`scrape.py:40-45`) and `CompanyBenefits`
(`scrape.py:85-90`): absent heading gives `some ""`; a found heading with a
missing parent raises `AttributeError`, modelled as `none` (record skipped);
otherwise the following `<p>`'s text, or `""` when there is none. -/
def headingSiblingP (lit : String) (sec : Section) : Option String :=
  match findStrongExact lit sec.strongs with
  | none => some ""
  | some s =>
    match s.parent with
    | none => none
    | some p =>
      match p.nextSiblingP with
      | some t => some t
      | none => some ""

/-- The skills loop of `scrape.py:71-76`: for each matching heading read the
following `<ul>`'s items (nothing when there is no such `<ul>`); a matching
heading with a missing parent raises `AttributeError`, modelled `none`. -/
def collectSkills : List StrongElem → Option (List String)
  | [] => some []
  | s :: rest =>
    if strongMatchesSkills s then
      match s.parent with
      | none => none
      | some p =>
        match collectSkills rest with
        | none => none
        | some restItems => some (p.nextSiblingUl.getD [] ++ restItems)
    else collectSkills rest

/-- `'; '.join` (`scrape.py:78`). -/
def joinSemi : List String → String
  | [] => ""
  | [s] => s
  | s :: rest => s ++ "; " ++ joinSemi rest

/-- `find('p', string=lambda text: text and 'Posted on' in text)`
(`scrape.py:36`). -/
def findPostedOn (ps : List PElem) : Option PElem :=
  ps.find? (fun p =>
    match p.str with
    | some t => (t != "") && pyContains "Posted on".data t.data
    | none => false)

/-- `find('a', href=lambda href: href and 'mailto:' in href)`
(`scrape.py:81`). -/
def firstMailtoHref (hrefs : List (Option String)) : Option String :=
  (hrefs.filterMap id).find? (fun h => (h != "") && pyContains "mailto:".data h.data)

/-- `extract_job_data` (`scrape.py:16-107`): produce the record, or `none`
(the skip signal) when a non-optional traversal step fails. -/
def extract_job_data (now : DateTime) (sec : Section) : Option JobRecord :=
  match headingSiblingP descHeadingText sec, collectSkills sec.strongs,
      headingSiblingP benefitsHeadingText sec with
  | some desc, some allSkills, some benefits =>
    some {
      JobTitle := sec.titleText.getD ""
      JobCategory := sec.categoryText.getD ""
      Location := sec.locationText.getD ""
      JobURL := match sec.applyButton with
        | some b => b.href
        | none => some ""
      JobID := match sec.applyButton with
        | some b => b.datatitle
        | none => some ""
      PostingDate := match findPostedOn sec.pElems with
        | some p => p.textStripped
        | none => ""
      JobDescriptionSummary := desc
      ExperienceRequired := extractExperience sec.fullText
      SkillsRequired := if allSkills.isEmpty then "" else joinSemi allSkills
      ContactEmail := match firstMailtoHref sec.aHrefs with
        | some h => String.mk (pyRemove "mailto:".data h.data)
        | none => ""
      CompanyBenefits := benefits
      Salary := ""
      ScrapedDate := formatTimestamp now
      SourceURL := BASE_URL }
  | _, _, _ => none

/-! ## Validator, exporter and run pipeline -/

/-- The count of records with all essential fields truthy
(`scrape.py:285-290`). -/
def completeCount (jobs : List JobRecord) : Nat :=
  (jobs.filter (fun j => j.JobTitle != "" && j.JobCategory != "" && j.Location != "")).length

/-- `validate_scraped_data` (`scrape.py:279-299`): `false` on an empty list;
otherwise `true` iff the completion percentage `complete/len*100` is at
least 80.  The Python float computation is modelled by the exact rational
comparison `80 * len ≤ complete * 100`; at these magnitudes the two agree
(an exact 4/5 ratio divides to the same double as the literal `4/5`, which
multiplies back to exactly `80.0`, and distinct ratios are separated by far
more than the rounding error). -/
def validate_scraped_data (jobs : List JobRecord) : Bool :=
  if jobs.isEmpty then false
  else decide (80 * jobs.length ≤ completeCount jobs * 100)

/-- A spreadsheet cell: text, an integer count, or a blank cell (a Python
`None`/NaN entry). -/
inductive Cell where
  | str (s : String)
  | nat (n : Nat)
  | blank
  deriving DecidableEq

/-- `df.replace('', None)` (`scrape.py:153`) followed by Excel writing:
an empty string becomes a blank cell. -/
def strCell (s : String) : Cell :=
  if s = "" then Cell.blank else Cell.str s

/-- A `JobURL`/`JobID` value: Python `None` and `''` both give blank cells. -/
def optCell : Option String → Cell
  | none => Cell.blank
  | some s => strCell s

/-- The fixed `column_order` of `scrape.py:141-146`. -/
def columnOrder : List String :=
  ["JobTitle", "JobCategory", "Location", "ExperienceRequired",
   "PostingDate", "JobDescriptionSummary", "SkillsRequired",
   "ContactEmail", "CompanyBenefits", "Salary", "JobURL",
   "JobID", "ScrapedDate", "SourceURL"]

/-- The keys of the `job_data` dict in assignment order
(`scrape.py:22-97`); every successful extraction populates exactly these,
so they are the DataFrame's columns. -/
def recordKeys : List String :=
  ["JobTitle", "JobCategory", "Location", "JobURL", "JobID", "PostingDate",
   "JobDescriptionSummary", "ExperienceRequired", "SkillsRequired",
   "ContactEmail", "CompanyBenefits", "Salary", "ScrapedDate", "SourceURL"]

/-- `existing_columns` (`scrape.py:149`): keep, in `column_order` order,
only the columns present in the data. -/
def existingColumns (cols : List String) : List String :=
  columnOrder.filter (fun c => cols.contains c)

/-- One data row of the Jobs sheet: the record projected onto
`columnOrder`, empty strings as blank cells. -/
def recordToRow (r : JobRecord) : List Cell :=
  [strCell r.JobTitle, strCell r.JobCategory, strCell r.Location,
   strCell r.ExperienceRequired, strCell r.PostingDate,
   strCell r.JobDescriptionSummary, strCell r.SkillsRequired,
   strCell r.ContactEmail, strCell r.CompanyBenefits, strCell r.Salary,
   optCell r.JobURL, optCell r.JobID, strCell r.ScrapedDate,
   strCell r.SourceURL]

/-- The recursion of `dedupFirst`, structural on a fuel argument so that it
reduces definitionally; the fuel is always at least the list length (each
step filters the tail, which cannot grow), so the fuel-exhausted arm is
never reached in use. -/
def dedupFirstGo : Nat → List String → List String
  | _, [] => []
  | 0, _ => []
  | fuel + 1, x :: xs => x :: dedupFirstGo fuel (xs.filter (fun y => y != x))

/-- First-appearance-ordered distinct values (the grouping order of
`pandas.value_counts` before its count sort). -/
def dedupFirst (l : List String) : List String :=
  dedupFirstGo l.length l

/-- The distinct values paired with their occurrence counts, in
first-appearance (natural grouping) order. -/
def naturalGroupPairs (vals : List String) : List (String × Nat) :=
  (dedupFirst vals).map (fun v => (v, vals.count v))

/-- Count-descending comparison on (value, count) pairs. -/
def byCountDesc (a b : String × Nat) : Prop := b.2 ≤ a.2

instance : DecidableRel byCountDesc := fun a b => Nat.decLe b.2 a.2

instance : IsTotal (String × Nat) byCountDesc :=
  ⟨fun a b => Nat.le_total b.2 a.2⟩

instance : IsTrans (String × Nat) byCountDesc :=
  ⟨fun _ _ _ h1 h2 => Nat.le_trans h2 h1⟩

/-- `pandas.Series.value_counts` (`scrape.py:237,248`): group by value in
first-appearance order, then stable-sort by count descending. -/
def valueCounts (vals : List String) : List (String × Nat) :=
  List.insertionSort byCountDesc (naturalGroupPairs vals)

/-- The non-missing values of a column after `df.replace('', None)`:
`value_counts` drops `None`/NaN entries, so empty-string fields are
excluded from the breakdowns. -/
def dropEmptyVals (xs : List String) : List String :=
  xs.filter (fun s => s != "")

/-- The category breakdown of `scrape.py:236-239`. -/
def categoryCounts (jobs : List JobRecord) : List (String × Nat) :=
  valueCounts (dropEmptyVals (jobs.map (fun r => r.JobCategory)))

/-- The location breakdown of `scrape.py:247-250`. -/
def locationCounts (jobs : List JobRecord) : List (String × Nat) :=
  valueCounts (dropEmptyVals (jobs.map (fun r => r.Location)))

/-- One breakdown row `[f'  {value}', count]` (`scrape.py:239,250`). -/
def breakdownRow (p : String × Nat) : List Cell :=
  [Cell.str ("  " ++ p.1), Cell.nat p.2]

/-- The rows of the Summary sheet (`create_summary_sheet`,
`scrape.py:220-255`). -/
def summarySheetRows (now : DateTime) (jobs : List JobRecord) : List (List Cell) :=
  [Cell.str "Metric", Cell.str "Value"] ::
  [Cell.str "Total Jobs", Cell.nat jobs.length] ::
  [Cell.str "Scraping Date", Cell.str (formatTimestamp now)] ::
  [Cell.str "Source", Cell.str "Techversant Infotech"] ::
  [Cell.str "Source URL", Cell.str BASE_URL] ::
  [Cell.str ""] ::
  [Cell.str "Jobs by Category", Cell.str ""] ::
  ((categoryCounts jobs).map breakdownRow ++
    [Cell.str ""] :: [Cell.str "Jobs by Location", Cell.str ""] ::
    (locationCounts jobs).map breakdownRow)

/-- The written workbook: the `Jobs` sheet's rows (header first) and the
`Summary` sheet's rows. -/
structure Workbook where
  jobsRows : List (List Cell)
  summaryRows : List (List Cell)
  deriving DecidableEq

/-- `save_jobs_to_excel` (`scrape.py:123-176`): `none` models the
`ValueError` on empty input; otherwise the two sheets are written. -/
def save_jobs_to_excel (now : DateTime) (jobs : List JobRecord) : Option Workbook :=
  if jobs.isEmpty then none
  else some
    { jobsRows := (existingColumns recordKeys).map Cell.str :: jobs.map recordToRow
      summaryRows := summarySheetRows now jobs }

/-- The per-section extraction loop of `scrape.py:338-348`: failed sections
(skip signal `none`) are dropped, the rest are kept in document order. -/
def processSections (now : DateTime) (secs : List Section) : List JobRecord :=
  secs.filterMap (extract_job_data now)

/-- The run pipeline after fetch and parse (`scrape_jobs`,
`scrape.py:326-365`): no sections → `none` (no file); extract each section;
validation is advisory (its result is only logged); no surviving records →
`none` (no file); otherwise save and return the workbook. -/
def scrapePipeline (now : DateTime) (secs : List Section) : Option Workbook :=
  if secs.isEmpty then none
  else
    let jobs := processSections now secs
    let _dataOk := validate_scraped_data jobs
    if jobs.isEmpty then none
    else save_jobs_to_excel now jobs

/-! ## Spec-side field characterisations

Standalone per-field functions used to compare the monolithic
`extract_job_data` against the spec's per-field descriptions. -/

/-- Spec reading of the SkillsRequired rule as claimed: only headings whose
text *equals* one of the four keywords contribute. -/
def specSkillsEquals (sec : Section) : String :=
  joinSemi (List.flatten ((sec.strongs.filter
      (fun s => skillsKeywords.any (fun k => s.str == some k))).map
    (fun s =>
      match s.parent with
      | some p => p.nextSiblingUl.getD []
      | none => [])))

/-- SkillsRequired as the code computes it: headings whose text *contains*
one of the four keywords, their following lists' items joined with `"; "`
in document order. -/
def specSkillsContains (sec : Section) : String :=
  joinSemi (List.flatten ((sec.strongs.filter strongMatchesSkills).map
    (fun s =>
      match s.parent with
      | some p => p.nextSiblingUl.getD []
      | none => [])))

/-- Spec reading of the ContactEmail rule as claimed: the href with only
the leading `"mailto:"` removed and the rest unchanged. -/
def specContactLeading (sec : Section) : String :=
  match firstMailtoHref sec.aHrefs with
  | some h =>
    if "mailto:".data.isPrefixOf h.data then String.mk (h.data.drop 7) else h
  | none => ""

/-- ContactEmail as the code computes it: every occurrence of `"mailto:"`
removed from the href. -/
def specContactRemoveAll (sec : Section) : String :=
  match firstMailtoHref sec.aHrefs with
  | some h => String.mk (pyRemove "mailto:".data h.data)
  | none => ""

/-! ## Concrete fixtures for witnesses and counterexamples -/

/-- A fixed capture time. -/
def now0 : DateTime := ⟨2026, 10, 12, 9, 5, 3⟩

/-- A section with none of the looked-up elements. -/
def emptySection : Section :=
  { titleText := none, categoryText := none, locationText := none,
    applyButton := none, pElems := [], fullText := "", strongs := [],
    aHrefs := [] }

/-- A fully populated well-formed section. -/
def fullSection : Section :=
  { titleText := some "Software Engineer",
    categoryText := some "Engineering",
    locationText := some "Kochi",
    applyButton := some ⟨some "https://example.org/apply", some "SE-01"⟩,
    pElems := [⟨some "Posted on 2025-01-01", "Posted on 2025-01-01"⟩],
    fullText := "Minimum of 3 years",
    strongs :=
      [⟨some "Required Skills", some ⟨some ["A", "B"], none⟩⟩,
       ⟨some "Technical Stack", some ⟨some ["C"], none⟩⟩,
       ⟨some benefitsHeadingText, some ⟨none, some "Great benefits"⟩⟩],
    aHrefs := [some "https://example.org", some "mailto:hr@example.org"] }

/-- A section whose skills heading has a detached parent: the traversal of
`scrape.py:73` raises `AttributeError` and the record is skipped. -/
def brokenSection : Section :=
  { emptySection with strongs := [⟨some "Required Skills", none⟩] }

/-- A section whose skills heading contains, but does not equal, a
keyword. -/
def containsOnlySection : Section :=
  { emptySection with strongs := [⟨some "My Preferred Skills", some ⟨some ["X"], none⟩⟩] }

/-- A section with two exact skills headings carrying items [A, B] and
[C]. -/
def twoHeadingsSection : Section :=
  { emptySection with strongs :=
      [⟨some "Required Skills", some ⟨some ["A", "B"], none⟩⟩,
       ⟨some "Preferred Skills", some ⟨some ["C"], none⟩⟩] }

/-- A section whose first mailto href contains `"mailto:"` twice. -/
def doubleMailtoSection : Section :=
  { emptySection with aHrefs := [some "mailto:a@b.com?cc=mailto:c@d.com"] }

/-- A section whose apply button exists but carries no `href`/`datatitle`
attribute, so `Tag.get` returns Python `None`. -/
def bareButtonSection : Section :=
  { emptySection with applyButton := some ⟨none, none⟩ }

/-- A section whose only populated field is the category. -/
def catSection (c : String) : Section :=
  { emptySection with categoryText := some c }

/-- The record extracted from `emptySection` at `now0`. -/
def rec0 : JobRecord :=
  { JobTitle := "", JobCategory := "", Location := "", JobURL := some "",
    JobID := some "", PostingDate := "", JobDescriptionSummary := "",
    ExperienceRequired := "", SkillsRequired := "", ContactEmail := "",
    CompanyBenefits := "", Salary := "", ScrapedDate := "2026-10-12 09:05:03",
    SourceURL := BASE_URL }

/-- The record extracted from `fullSection` at `now0`. -/
def fullRec : JobRecord :=
  { JobTitle := "Software Engineer", JobCategory := "Engineering",
    Location := "Kochi", JobURL := some "https://example.org/apply",
    JobID := some "SE-01", PostingDate := "Posted on 2025-01-01",
    JobDescriptionSummary := "", ExperienceRequired := "Minimum of 3 years",
    SkillsRequired := "A; B; C", ContactEmail := "hr@example.org",
    CompanyBenefits := "Great benefits", Salary := "",
    ScrapedDate := "2026-10-12 09:05:03", SourceURL := BASE_URL }

/-- The record extracted from `bareButtonSection` at `now0`: note the
Python-`None` `JobURL`/`JobID`. -/
def bareRec : JobRecord :=
  { rec0 with JobURL := none, JobID := none }

/-- A one-record collection whose category is `"A"`, produced by
extraction. -/
def jobsA : List JobRecord :=
  (extract_job_data now0 (catSection "A")).toList

/-- A two-record collection with categories `"A"` and `""`, produced by
extraction. -/
def mixedJobs : List JobRecord :=
  (extract_job_data now0 (catSection "A")).toList ++
    (extract_job_data now0 emptySection).toList

/-! ## Helper lemmas -/

theorem formatTimestamp_ne_empty (d : DateTime) : formatTimestamp d ≠ "" := by
  intro h
  have h0 : (formatTimestamp d).length = 0 := by rw [h]; rfl
  have h1 : (("-" : String)).length = 1 := rfl
  simp only [formatTimestamp, String.length_append] at h0
  omega

/-- A successful skills traversal collects, in document order, the items of
the list following each matching heading. -/
theorem collectSkills_eq :
    ∀ (ss : List StrongElem) (l : List String), collectSkills ss = some l →
      l = List.flatten ((ss.filter strongMatchesSkills).map
        (fun s =>
          match s.parent with
          | some p => p.nextSiblingUl.getD []
          | none => [])) := by
  intro ss
  induction ss with
  | nil => intro l h; simp [collectSkills] at h; simp [← h]
  | cons s rest ih =>
    intro l h
    simp only [collectSkills] at h
    by_cases hm : strongMatchesSkills s
    · rw [if_pos hm] at h
      match hp : s.parent with
      | none => rw [hp] at h; exact absurd h (by simp)
      | some p =>
        rw [hp] at h
        match hr : collectSkills rest with
        | none => rw [hr] at h; exact absurd h (by simp)
        | some restItems =>
          rw [hr] at h
          have hl : l = p.nextSiblingUl.getD [] ++ restItems := by
            injection h with h; exact h.symm
          rw [hl, ih restItems hr]
          simp [List.filter_cons, hm, hp]
    · rw [if_neg hm] at h
      rw [ih l h]
      simp [List.filter_cons, hm]

/-- Inversion of a successful extraction: the projections of the produced
record in terms of the section's queried content. -/
theorem extract_some_proj {now : DateTime} {sec : Section} {r : JobRecord}
    (h : extract_job_data now sec = some r) :
    r.ScrapedDate = formatTimestamp now
  ∧ r.SourceURL = BASE_URL
  ∧ (∃ allSkills, collectSkills sec.strongs = some allSkills ∧
      r.SkillsRequired = (if allSkills.isEmpty then "" else joinSemi allSkills))
  ∧ r.ContactEmail = specContactRemoveAll sec
  ∧ r.JobURL = (match sec.applyButton with
      | some b => b.href
      | none => some "")
  ∧ r.JobID = (match sec.applyButton with
      | some b => b.datatitle
      | none => some "")
  ∧ r.ExperienceRequired = extractExperience sec.fullText := by
  unfold extract_job_data at h
  split at h
  next desc allSkills benefits hdesc hskills hbene =>
    injection h with h
    subst h
    refine ⟨rfl, rfl, ⟨allSkills, hskills, rfl⟩, ?_, rfl, rfl, rfl⟩
    simp [specContactRemoveAll]
  next => exact absurd h (by simp)

theorem mem_dedupFirstGo (a : String) :
    ∀ (fuel : Nat) (l : List String), l.length ≤ fuel →
      (a ∈ dedupFirstGo fuel l ↔ a ∈ l) := by
  intro fuel
  induction fuel with
  | zero =>
    intro l hl
    have hnil : l = [] := List.length_eq_zero.mp (Nat.le_zero.mp hl)
    subst hnil
    simp [dedupFirstGo]
  | succ fuel ih =>
    intro l hl
    cases l with
    | nil => simp [dedupFirstGo]
    | cons x xs =>
      have hlen : (xs.filter (fun y => y != x)).length ≤ fuel := by
        have hf := List.length_filter_le (fun y => y != x) xs
        simp only [List.length_cons] at hl
        omega
      simp only [dedupFirstGo, List.mem_cons, ih _ hlen, List.mem_filter,
        bne_iff_ne, ne_eq]
      constructor
      · rintro (rfl | ⟨hmem, _⟩)
        · exact Or.inl rfl
        · exact Or.inr hmem
      · rintro (rfl | hmem)
        · exact Or.inl rfl
        · by_cases hax : a = x
          · exact Or.inl hax
          · exact Or.inr ⟨hmem, hax⟩

theorem mem_dedupFirst (a : String) (l : List String) : a ∈ dedupFirst l ↔ a ∈ l :=
  mem_dedupFirstGo a l.length l (Nat.le_refl _)

theorem nodup_dedupFirstGo :
    ∀ (fuel : Nat) (l : List String), l.length ≤ fuel →
      (dedupFirstGo fuel l).Nodup := by
  intro fuel
  induction fuel with
  | zero =>
    intro l hl
    have hnil : l = [] := List.length_eq_zero.mp (Nat.le_zero.mp hl)
    subst hnil
    simp [dedupFirstGo]
  | succ fuel ih =>
    intro l hl
    cases l with
    | nil => simp [dedupFirstGo]
    | cons x xs =>
      have hlen : (xs.filter (fun y => y != x)).length ≤ fuel := by
        have hf := List.length_filter_le (fun y => y != x) xs
        simp only [List.length_cons] at hl
        omega
      refine List.nodup_cons.mpr ⟨?_, ih _ hlen⟩
      intro hmem
      have hx := (mem_dedupFirstGo x fuel _ hlen).mp hmem
      simp [List.mem_filter] at hx

theorem nodup_dedupFirst (l : List String) : (dedupFirst l).Nodup :=
  nodup_dedupFirstGo l.length l (Nat.le_refl _)

/-- The first components of `naturalGroupPairs` are the distinct values. -/
theorem map_fst_naturalGroupPairs (vals : List String) :
    (naturalGroupPairs vals).map Prod.fst = dedupFirst vals := by
  simp [naturalGroupPairs, List.map_map, Function.comp_def]

/-- The well-formedness properties of the `value_counts` model: distinct
keys, keys are exactly the column's values, correct counts, rows sorted by
count descending, and no reordering when the natural grouping order is
already count-descending. -/
theorem valueCounts_props (vals : List String) :
    ((valueCounts vals).map Prod.fst).Nodup
  ∧ (∀ v, v ∈ (valueCounts vals).map Prod.fst ↔ v ∈ vals)
  ∧ (∀ p, p ∈ valueCounts vals → p.2 = vals.count p.1)
  ∧ List.Sorted byCountDesc (valueCounts vals)
  ∧ (List.Sorted byCountDesc (naturalGroupPairs vals) →
      valueCounts vals = naturalGroupPairs vals) := by
  have hperm : List.Perm (valueCounts vals) (naturalGroupPairs vals) :=
    List.perm_insertionSort byCountDesc (naturalGroupPairs vals)
  have hmap : List.Perm ((valueCounts vals).map Prod.fst) (dedupFirst vals) := by
    rw [← map_fst_naturalGroupPairs vals]
    exact hperm.map Prod.fst
  refine ⟨?_, ?_, ?_, ?_, ?_⟩
  · exact hmap.nodup_iff.mpr (nodup_dedupFirst vals)
  · intro v
    rw [hmap.mem_iff, mem_dedupFirst]
  · intro p hp
    have hp2 : p ∈ naturalGroupPairs vals := hperm.mem_iff.mp hp
    obtain ⟨v, _, heq⟩ := List.mem_map.mp hp2
    rw [← heq]
  · exact List.sorted_insertionSort byCountDesc (naturalGroupPairs vals)
  · intro hs
    exact hs.insertionSort_eq

/-- Joining is unaffected by the `if all_skills` guard of `scrape.py:78`. -/
theorem if_isEmpty_joinSemi (l : List String) :
    (if l.isEmpty then "" else joinSemi l) = joinSemi l := by
  cases l <;> simp [joinSemi]

/-! ## Claims -/

/-- C1: ExperienceRequired scans the section's full text against the fixed
ordered list of four case-insensitive patterns; the first pattern in that
order that matches anywhere wins (its leftmost match is taken), regardless
of later patterns; no match gives the empty string; and on the full text
`"5+ years of experience required"` the result is exactly
`"5+ years of experience"`. -/
theorem C1_experience_priority :
    extractExperience "5+ years of experience required" = "5+ years of experience"
  ∧ (∀ t : String, reSearch matchP1At t.data = none → reSearch matchP2At t.data = none →
      reSearch matchP3At t.data = none → reSearch matchP4At t.data = none →
      extractExperience t = "")
  ∧ (∀ (t : String) (m : List Char), reSearch matchP1At t.data = some m →
      extractExperience t = String.mk m)
  ∧ (∀ (t : String) (m : List Char), reSearch matchP1At t.data = none →
      reSearch matchP2At t.data = some m → extractExperience t = String.mk m)
  ∧ (∀ (t : String) (m : List Char), reSearch matchP1At t.data = none →
      reSearch matchP2At t.data = none → reSearch matchP3At t.data = some m →
      extractExperience t = String.mk m)
  ∧ (∀ (t : String) (m : List Char), reSearch matchP1At t.data = none →
      reSearch matchP2At t.data = none → reSearch matchP3At t.data = none →
      reSearch matchP4At t.data = some m → extractExperience t = String.mk m) := by
  refine ⟨by decide, ?_, ?_, ?_, ?_, ?_⟩
  · intro t h1 h2 h3 h4
    simp [extractExperience, experiencePatterns, findExperience, h1, h2, h3, h4]
  · intro t m h1
    simp [extractExperience, experiencePatterns, findExperience, h1]
  · intro t m h1 h2
    simp [extractExperience, experiencePatterns, findExperience, h1, h2]
  · intro t m h1 h2 h3
    simp [extractExperience, experiencePatterns, findExperience, h1, h2, h3]
  · intro t m h1 h2 h3 h4
    simp [extractExperience, experiencePatterns, findExperience, h1, h2, h3, h4]

/-- C1 witness: pattern 2 decides the result once pattern 1 fails. -/
theorem C1_experience_priority_witness :
    extractExperience "Minimum of 3 years" = String.mk "Minimum of 3 years".data :=
  C1_experience_priority.2.2.2.1 "Minimum of 3 years" "Minimum of 3 years".data
    (by decide) (by decide)

/-- C2 counterexample: the code matches skills headings by substring
containment (`keyword in text`, `scrape.py:68`), not equality; a heading
`"My Preferred Skills"` contributes its items, while the claim's
equality-based rule yields the empty string. -/
theorem C2_counterexample :
    Option.map (fun r => r.SkillsRequired) (extract_job_data now0 containsOnlySection)
      = some "X"
  ∧ specSkillsEquals containsOnlySection = ""
  ∧ Option.map (fun r => r.SkillsRequired) (extract_job_data now0 containsOnlySection)
      ≠ some (specSkillsEquals containsOnlySection) := by decide

/-- C2 (amended): SkillsRequired is the semicolon-joined concatenation, in
document order, of the list items following every heading whose text
*contains* one of the four skills keywords, aggregated across all such
headings; no such heading gives exactly the empty string; and two headings
with items [A, B] and [C] give `"A; B; C"`. -/
theorem C2_skills_joined :
    (∀ now sec r, extract_job_data now sec = some r →
      r.SkillsRequired = specSkillsContains sec)
  ∧ (∀ now sec r, extract_job_data now sec = some r →
      sec.strongs.filter strongMatchesSkills = [] → r.SkillsRequired = "")
  ∧ Option.map (fun r => r.SkillsRequired) (extract_job_data now0 twoHeadingsSection)
      = some "A; B; C" := by
  have hmain : ∀ now sec r, extract_job_data now sec = some r →
      r.SkillsRequired = specSkillsContains sec := by
    intro now sec r h
    obtain ⟨-, -, ⟨allSkills, hsk, hval⟩, -⟩ := extract_some_proj h
    rw [hval, collectSkills_eq _ _ hsk, if_isEmpty_joinSemi]
    rfl
  refine ⟨hmain, ?_, by decide⟩
  intro now sec r h hfilter
  rw [hmain now sec r h]
  unfold specSkillsContains
  rw [hfilter]
  rfl

/-- C2 witness: the amended rule on a populated section and on a section
with no skills heading. -/
theorem C2_skills_joined_witness :
    fullRec.SkillsRequired = specSkillsContains fullSection
  ∧ rec0.SkillsRequired = "" :=
  ⟨C2_skills_joined.1 now0 fullSection fullRec (by decide),
   C2_skills_joined.2.1 now0 emptySection rec0 (by decide) (by decide)⟩

/-- C3: every successfully extracted record has non-empty ScrapedDate and
SourceURL, whatever the section's content. -/
theorem C3_metadata_populated :
    ∀ now sec r, extract_job_data now sec = some r →
      r.ScrapedDate ≠ "" ∧ r.SourceURL ≠ "" := by
  intro now sec r h
  obtain ⟨h1, h2, -⟩ := extract_some_proj h
  refine ⟨?_, ?_⟩
  · rw [h1]; exact formatTimestamp_ne_empty now
  · rw [h2]; decide

/-- C3 witness: a section with every optional element missing. -/
theorem C3_metadata_populated_witness :
    rec0.ScrapedDate ≠ "" ∧ rec0.SourceURL ≠ "" :=
  C3_metadata_populated now0 emptySection rec0 (by decide)

/-- C4: a structural failure in one section drops exactly that record
(the extractor returns the skip signal, never a partial record), extraction
of the other sections is unaffected, and the run's result is the same as if
the failing section had not been present. -/
theorem C4_per_record_isolation :
    (∀ now pre bad post, extract_job_data now bad = none →
      processSections now (pre ++ bad :: post) = processSections now (pre ++ post))
  ∧ (∀ now secs, (processSections now secs).length
      = (secs.filter (fun s => (extract_job_data now s).isSome)).length)
  ∧ (∀ now pre bad post, extract_job_data now bad = none →
      scrapePipeline now (pre ++ bad :: post) = scrapePipeline now (pre ++ post)) := by
  have hdrop : ∀ now pre bad post, extract_job_data now bad = none →
      processSections now (pre ++ bad :: post) = processSections now (pre ++ post) := by
    intro now pre bad post h
    simp [processSections, List.filterMap_append, List.filterMap_cons, h]
  refine ⟨hdrop, ?_, ?_⟩
  · intro now secs
    induction secs with
    | nil => rfl
    | cons s rest ih =>
      simp only [processSections, List.filterMap_cons, List.filter_cons] at ih ⊢
      cases h : extract_job_data now s with
      | none => simp [h, ih]
      | some r => simp [h, ih]
  · intro now pre bad post h
    simp only [scrapePipeline, hdrop now pre bad post h]
    by_cases hpp : (pre ++ post).isEmpty = true
    · have hpre : pre = [] := by cases pre <;> simp_all
      have hpost : post = [] := by cases pre <;> cases post <;> simp_all
      subst hpre; subst hpost
      simp [processSections, List.filterMap_cons, h]
    · have hbad : ((pre ++ bad :: post).isEmpty) = false := by
        cases pre <;> simp
      simp only [hbad, eq_self_iff_true]
      simp [hpp]

/-- C4 witness: dropping a concrete failing section. -/
theorem C4_per_record_isolation_witness :
    processSections now0 ([fullSection] ++ brokenSection :: [emptySection])
      = processSections now0 ([fullSection] ++ [emptySection]) :=
  C4_per_record_isolation.1 now0 [fullSection] brokenSection [emptySection] (by decide)

/-- C5: on a non-empty collection the validator returns `true` exactly when
the fraction of records with all of JobTitle, JobCategory, Location
non-empty is at least 80%; a failing validation does not prevent the
export, which runs whenever any record survived. -/
theorem C5_validator_advisory :
    (∀ jobs : List JobRecord, jobs ≠ [] →
      (validate_scraped_data jobs = true ↔ 4 * jobs.length ≤ 5 * completeCount jobs))
  ∧ (∀ now secs, secs ≠ [] → processSections now secs ≠ [] →
      (scrapePipeline now secs).isSome = true) := by
  constructor
  · intro jobs hne
    have h1 : jobs.isEmpty = false := by simpa [List.isEmpty_iff] using hne
    simp only [validate_scraped_data, h1, Bool.false_eq_true, if_false,
      decide_eq_true_eq]
    omega
  · intro now secs h1 h2
    have e1 : secs.isEmpty = false := by simpa [List.isEmpty_iff] using h1
    have e2 : (processSections now secs).isEmpty = false := by
      simpa [List.isEmpty_iff] using h2
    simp [scrapePipeline, e1, e2, save_jobs_to_excel]

/-- C5 witness: a fully complete one-record collection validates healthy
and its run exports. -/
theorem C5_validator_advisory_witness :
    (validate_scraped_data [fullRec] = true ↔ 4 * [fullRec].length ≤ 5 * completeCount [fullRec])
  ∧ (scrapePipeline now0 [fullSection]).isSome = true :=
  ⟨C5_validator_advisory.1 [fullRec] (by decide),
   C5_validator_advisory.2 now0 [fullSection] (by decide) (by decide)⟩

/-- C6: exporting N records writes a Jobs sheet with exactly N+1 rows
(header plus one row per record) and a Summary sheet whose second row is
`['Total Jobs', N]`. -/
theorem C6_export_counts :
    ∀ now jobs, jobs ≠ [] →
      Option.map (fun wb => wb.jobsRows.length) (save_jobs_to_excel now jobs)
        = some (jobs.length + 1)
    ∧ Option.map (fun wb => wb.summaryRows[1]?) (save_jobs_to_excel now jobs)
        = some (some [Cell.str "Total Jobs", Cell.nat jobs.length]) := by
  intro now jobs hne
  have h1 : jobs.isEmpty = false := by simpa [List.isEmpty_iff] using hne
  constructor
  · simp [save_jobs_to_excel, h1]
  · simp [save_jobs_to_excel, h1, summarySheetRows]

/-- C6 witness: a concrete one-record export. -/
theorem C6_export_counts_witness :
    Option.map (fun wb => wb.jobsRows.length) (save_jobs_to_excel now0 [rec0])
      = some ([rec0].length + 1)
  ∧ Option.map (fun wb => wb.summaryRows[1]?) (save_jobs_to_excel now0 [rec0])
      = some (some [Cell.str "Total Jobs", Cell.nat [rec0].length]) :=
  C6_export_counts now0 [rec0] (by decide)

/-- C7: with zero posting sections, or zero surviving records, the run's
result is `none` and no workbook is produced. -/
theorem C7_no_data_no_output :
    (∀ now, scrapePipeline now ([] : List Section) = none)
  ∧ (∀ now secs, processSections now secs = [] → scrapePipeline now secs = none) := by
  constructor
  · intro now; rfl
  · intro now secs h
    unfold scrapePipeline
    by_cases he : secs.isEmpty = true
    · simp [he]
    · simp [he, h]

/-- C7 witness: a run whose only section fails extraction produces no
output. -/
theorem C7_no_data_no_output_witness :
    scrapePipeline now0 [brokenSection] = none :=
  C7_no_data_no_output.2 now0 [brokenSection] (by decide)

/-- C8 counterexample: records whose JobCategory is empty are excluded from
the breakdown (`df.replace('', None)` at `scrape.py:153` turns them into
missing values, which `value_counts` drops), so a collection with distinct
values `["A", ""]` gets one breakdown row, not one row per distinct
value. -/
theorem C8_counterexample :
    (categoryCounts mixedJobs).length = 1
  ∧ (dedupFirst (mixedJobs.map (fun r => r.JobCategory))).length = 2
  ∧ (categoryCounts mixedJobs).map Prod.fst
      ≠ dedupFirst (mixedJobs.map (fun r => r.JobCategory)) := by decide

/-- C8 (amended): the per-JobCategory breakdown (and likewise
per-Location) has one row per distinct *non-empty* value, each carrying
that value's record count, rows sorted count-descending with ties kept in
natural grouping (first-appearance) order — in particular an already
count-descending grouping is not re-sorted. -/
theorem C8_summary_breakdowns :
    (∀ jobs : List JobRecord,
      ((categoryCounts jobs).map Prod.fst).Nodup
      ∧ (∀ v, v ∈ (categoryCounts jobs).map Prod.fst ↔
          v ∈ dropEmptyVals (jobs.map (fun r => r.JobCategory)))
      ∧ (∀ p, p ∈ categoryCounts jobs →
          p.2 = (dropEmptyVals (jobs.map (fun r => r.JobCategory))).count p.1)
      ∧ List.Sorted byCountDesc (categoryCounts jobs)
      ∧ (List.Sorted byCountDesc
            (naturalGroupPairs (dropEmptyVals (jobs.map (fun r => r.JobCategory)))) →
          categoryCounts jobs
            = naturalGroupPairs (dropEmptyVals (jobs.map (fun r => r.JobCategory)))))
  ∧ (∀ jobs : List JobRecord,
      ((locationCounts jobs).map Prod.fst).Nodup
      ∧ (∀ v, v ∈ (locationCounts jobs).map Prod.fst ↔
          v ∈ dropEmptyVals (jobs.map (fun r => r.Location)))
      ∧ (∀ p, p ∈ locationCounts jobs →
          p.2 = (dropEmptyVals (jobs.map (fun r => r.Location))).count p.1)
      ∧ List.Sorted byCountDesc (locationCounts jobs)
      ∧ (List.Sorted byCountDesc
            (naturalGroupPairs (dropEmptyVals (jobs.map (fun r => r.Location)))) →
          locationCounts jobs
            = naturalGroupPairs (dropEmptyVals (jobs.map (fun r => r.Location))))) := by
  constructor
  · intro jobs
    exact valueCounts_props (dropEmptyVals (jobs.map (fun r => r.JobCategory)))
  · intro jobs
    exact valueCounts_props (dropEmptyVals (jobs.map (fun r => r.Location)))

/-- C8 witness: a concrete one-category collection. -/
theorem C8_summary_breakdowns_witness :
    ("A", 1).2 = (dropEmptyVals (jobsA.map (fun r => r.JobCategory))).count ("A", 1).1
  ∧ categoryCounts jobsA
      = naturalGroupPairs (dropEmptyVals (jobsA.map (fun r => r.JobCategory))) :=
  ⟨(C8_summary_breakdowns.1 jobsA).2.2.1 ("A", 1) (by decide),
   (C8_summary_breakdowns.1 jobsA).2.2.2.2 (by decide)⟩

/-- C9 counterexample: the code removes *every* occurrence of `"mailto:"`
from the href (`str.replace`, `scrape.py:82`), while the claim removes only
the leading prefix; an href containing `"mailto:"` twice separates the
two. -/
theorem C9_counterexample :
    Option.map (fun r => r.ContactEmail) (extract_job_data now0 doubleMailtoSection)
      = some "a@b.com?cc=c@d.com"
  ∧ specContactLeading doubleMailtoSection = "a@b.com?cc=mailto:c@d.com"
  ∧ Option.map (fun r => r.ContactEmail) (extract_job_data now0 doubleMailtoSection)
      ≠ some (specContactLeading doubleMailtoSection) := by decide

/-- C9 (amended): ContactEmail is the first `"mailto:"`-containing link's
href with every occurrence of `"mailto:"` removed, and the empty string
when no such link exists. -/
theorem C9_contact_email :
    (∀ now sec r, extract_job_data now sec = some r →
      r.ContactEmail = specContactRemoveAll sec)
  ∧ (∀ now sec r, extract_job_data now sec = some r →
      firstMailtoHref sec.aHrefs = none → r.ContactEmail = "") := by
  have hmain : ∀ now sec r, extract_job_data now sec = some r →
      r.ContactEmail = specContactRemoveAll sec := by
    intro now sec r h
    exact (extract_some_proj h).2.2.2.1
  refine ⟨hmain, ?_⟩
  intro now sec r h hm
  rw [hmain now sec r h]
  simp [specContactRemoveAll, hm]

/-- C9 witness: a section with a mailto link and one without. -/
theorem C9_contact_email_witness :
    fullRec.ContactEmail = specContactRemoveAll fullSection
  ∧ rec0.ContactEmail = "" :=
  ⟨C9_contact_email.1 now0 fullSection fullRec (by decide),
   C9_contact_email.2 now0 emptySection rec0 (by decide) (by decide)⟩

/-- C10 counterexample: a section whose apply button lacks the `href`
attribute extracts successfully, but its JobURL is Python `None`
(`Tag.get`, `scrape.py:32`), not a string, so not every field is at least
the empty string. -/
theorem C10_counterexample :
    (extract_job_data now0 bareButtonSection).isSome = true
  ∧ Option.map (fun r => r.JobURL) (extract_job_data now0 bareButtonSection)
      = some none
  ∧ (none : Option String) ≠ some "" := by decide

/-- C10 (amended): every successful extraction populates all 14 schema
keys, so the exporter's column filter keeps the full fixed 14-column order
and the Jobs header row lists exactly those columns; every field is a
string except JobURL/JobID, which are Python `None` exactly when the apply
button is present but lacks the corresponding attribute. -/
theorem C10_full_schema :
    existingColumns recordKeys = columnOrder
  ∧ (∀ now sec r, extract_job_data now sec = some r →
      ((r.JobURL = none ↔ ∃ b, sec.applyButton = some b ∧ b.href = none)
        ∧ (r.JobID = none ↔ ∃ b, sec.applyButton = some b ∧ b.datatitle = none)))
  ∧ (∀ now jobs, jobs ≠ [] →
      Option.map (fun wb => wb.jobsRows.headD []) (save_jobs_to_excel now jobs)
        = some (columnOrder.map Cell.str)) := by
  refine ⟨by decide, ?_, ?_⟩
  · intro now sec r h
    obtain ⟨-, -, -, -, hurl, hid, -⟩ := extract_some_proj h
    constructor
    · rw [hurl]
      cases sec.applyButton with
      | none => simp
      | some b => simp
    · rw [hid]
      cases sec.applyButton with
      | none => simp
      | some b => simp
  · intro now jobs hne
    have h1 : jobs.isEmpty = false := by simpa [List.isEmpty_iff] using hne
    have h2 : existingColumns recordKeys = columnOrder := by decide
    simp [save_jobs_to_excel, h1, h2]

/-- C10 witness: the attribute-less apply button and a concrete export
header. -/
theorem C10_full_schema_witness :
    (bareRec.JobURL = none ↔ ∃ b, bareButtonSection.applyButton = some b ∧ b.href = none)
  ∧ Option.map (fun wb => wb.jobsRows.headD []) (save_jobs_to_excel now0 [rec0])
      = some (columnOrder.map Cell.str) :=
  ⟨(C10_full_schema.2.1 now0 bareButtonSection bareRec (by decide)).1,
   C10_full_schema.2.2 now0 [rec0] (by decide)⟩

end JobScrape
